import Mathlib

/-!
Verification development for the cpplot argument-marshaling and invocation layer
(src/cpplot/cpplot.hpp). The foreign (Python) runtime is modelled abstractly:
foreign objects are identifiers, reference-count activity is an event trace, and
foreign constructors that can fail are parametrized by the identifier they would
return (with none standing for an allocation failure). Every definition below is
translated from the source header unless its doc comment says otherwise.
-/

namespace Cpplot

/-- Model of a raw PyObject pointer: null or the identifier of a foreign object. -/
abbrev PyPtr := Option Nat

/-- Identifier of the Py_True singleton (a pre-existing foreign object). -/
def pyTrueId : Nat := 0

/-- Identifier of the Py_False singleton (a pre-existing foreign object). -/
def pyFalseId : Nat := 1

/-- Reference-count events performed on the foreign heap. -/
inductive RcEvent where
  | incref (i : Nat)
  | decref (i : Nat)
deriving DecidableEq

/-- Net reference-count change a trace of events performs on object i. -/
def netEffect : List RcEvent → Nat → Int
  | [], _ => 0
  | .incref j :: rest, i => (if j = i then 1 else 0) + netEffect rest i
  | .decref j :: rest, i => (if j = i then -1 else 0) + netEffect rest i

/-- Trace of Py_INCREF(_p) guarded by `if (_p)`. -/
def increfTrace : PyPtr → List RcEvent
  | none => []
  | some i => [.incref i]

/-- Trace of Py_DECREF(_p) guarded by `if (_p)`. -/
def decrefTrace : PyPtr → List RcEvent
  | none => []
  | some i => [.decref i]

/-- detail::swap_pyobjects: exchanges two raw pointers. -/
def swap_pyobjects (a b : PyPtr) : PyPtr × PyPtr := (b, a)

/-- PyObjectWrapper(PyObject* p): owned-pointer construction stores the pointer and
performs no reference-count event. -/
def wrapperOwnedCtor (p : PyPtr) : PyPtr × List RcEvent := (p, [])

/-- PyObjectWrapper(PyObject* p, WeakReference): borrowed-pointer construction stores
the pointer and increments when it is non-null. -/
def wrapperBorrowCtor (p : PyPtr) : PyPtr × List RcEvent := (p, increfTrace p)

/-- PyObjectWrapper(const PyObjectWrapper&): delegates to the borrowed-pointer
constructor on other._p. -/
def wrapperCopyCtor (other : PyPtr) : PyPtr × List RcEvent := wrapperBorrowCtor other

/-- PyObjectWrapper(PyObjectWrapper&&): delegates to PyObjectWrapper(nullptr), then
swap_pyobjects(_p, other._p). Result is ((new self, new other), trace). -/
def wrapperMoveCtor (other : PyPtr) : (PyPtr × PyPtr) × List RcEvent :=
  let (self, t) := wrapperOwnedCtor none
  (swap_pyobjects self other, t)

/-- PyObjectWrapper::operator=(PyObjectWrapper&&): swap_pyobjects(_p, other._p).
Result is ((new self, new other), trace). -/
def wrapperMoveAssign (self other : PyPtr) : (PyPtr × PyPtr) × List RcEvent :=
  (swap_pyobjects self other, [])

/-- PyObjectWrapper::~PyObjectWrapper: Py_DECREF(_p) if non-null. -/
def wrapperDtor (p : PyPtr) : List RcEvent := decrefTrace p

/-- PyObjectWrapper::operator=(const PyObjectWrapper& other):
it executes *this = PyObjectWrapper{other}, i.e. copy-constructs a temporary from
other, move-assigns the temporary into self, and destroys the temporary. -/
def wrapperCopyAssign (self other : PyPtr) : PyPtr × List RcEvent :=
  let (tmp, t1) := wrapperCopyCtor other
  let ((selfNew, tmpNew), t2) := wrapperMoveAssign self tmp
  (selfNew, t1 ++ t2 ++ wrapperDtor tmpNew)

/-- Host-side scalar values accepted by detail::value_to_pyobject. A floating-point
payload is carried as opaque bits: the conversion only forwards it. -/
inductive Scalar where
  | boolV (b : Bool)
  | intV (n : Int)
  | uintV (n : Nat)
  | floatV (bits : Nat)
  | strV (s : String)
deriving DecidableEq

instance : Inhabited Scalar := ⟨.intV 0⟩

/-- Foreign values produced by the conversions. -/
inductive PyVal where
  | pyBool (b : Bool)
  | pyLong (n : Int)
  | pyFloat (bits : Nat)
  | pyUnicode (s : String)
deriving DecidableEq

/-- Value view of detail::value_to_pyobject: which foreign value each overload of the
OverloadSet produces (PyFloat_FromDouble, Py_True/Py_False, PyLong_FromLong,
PyLong_FromSize_t, PyUnicode_FromString). -/
def value_to_pyobject_val : Scalar → PyVal
  | .boolV b => .pyBool b
  | .intV n => .pyLong n
  | .uintV n => .pyLong n
  | .floatV bits => .pyFloat bits
  | .strV s => .pyUnicode s

/-- Handle/refcount/notification view of detail::value_to_pyobject. `alloc` is the
identifier the foreign allocator returns for a freshly constructed object (none models
an allocation failure); a successful allocation creates the object holding one
reference, modelled as a single incref of the fresh identifier. The bool overload
returns the Py_True/Py_False singleton WITHOUT Py_INCREF. No branch goes through
detail::check, so the notification count (third component) is always 0. -/
def value_to_pyobject_rc (alloc : Option Nat) : Scalar → PyPtr × List RcEvent × Nat
  | .boolV b => (some (if b then pyTrueId else pyFalseId), [], 0)
  | _ =>
    match alloc with
    | some i => (some i, [.incref i], 0)
    | none => (none, [], 0)

/-- One host scope that converts a scalar via detail::value_to_pyobject and destroys
the resulting PyObjectWrapper handle when the scope ends. -/
def conversionScopeTrace (alloc : Option Nat) (v : Scalar) : List RcEvent :=
  let (p, t, _) := value_to_pyobject_rc alloc v
  t ++ wrapperDtor p

/-- Value view of detail::as_pylist: each element is converted in iteration order and
inserted at consecutive indices (PyList_SetItem steals the released reference). -/
def as_pylist_val (range : List Scalar) : List PyVal :=
  range.map value_to_pyobject_val

/-- Handle/notification view of detail::as_pylist: the PyList_New result is returned
as the handle without any detail::check, so the notification count is 0 even when
PyList_New returned null. -/
def as_pylist_rc (allocList : Option Nat) : PyPtr × Nat := (allocList, 0)

/-- detail::check: runs the callback; if the result is null, PyErr_Print fires (one
notification); the result is returned either way. -/
def check (r : Option Nat) : Option Nat × Nat :=
  (r, if r.isSome then 0 else 1)

/-- C vararg slots as handed to Py_BuildValue by detail::as_pyobject: the
as_buildvalue_arg overload set passes strings as const char pointers and lets scalars
pass through (default vararg promotions apply: bool promotes to int, float to double). -/
inductive CArg where
  | cstr (s : String)
  | cint (n : Int)
  | cdouble (bits : Nat)
deriving DecidableEq

/-- Format units produced by detail::kwargs_format_for. -/
inductive BFmt where
  | fs
  | fi
  | ff
deriving DecidableEq

/-- detail::kwargs_format_for: floating-point values map to "f", integral values
(bool included, since that overload set has no dedicated bool case) to "i", strings
to "s". -/
def kwargs_format_for : Scalar → BFmt
  | .boolV _ => .fi
  | .intV _ => .fi
  | .uintV _ => .fi
  | .floatV _ => .ff
  | .strV _ => .fs

/-- The as_buildvalue_arg overload set of detail::as_pyobject restricted to scalars:
std::string passes s.c_str(), everything else passes through as a vararg. -/
def as_buildvalue_arg : Scalar → CArg
  | .boolV b => .cint (if b then 1 else 0)
  | .intV n => .cint n
  | .uintV n => .cint n
  | .floatV bits => .cdouble bits
  | .strV s => .cstr s

/-- Interpretation of one vararg slot under one format unit, modelled from the
CPython Py_BuildValue API; reading a slot at the wrong type is undefined behavior,
modelled conservatively as failure. -/
def consumeArg : BFmt → CArg → Option PyVal
  | .fs, .cstr s => some (.pyUnicode s)
  | .fi, .cint n => some (.pyLong n)
  | .ff, .cdouble bits => some (.pyFloat bits)
  | _, _ => none

/-- Py_BuildValue with a dictionary format (one "s:x" unit per entry), modelled from
the CPython API: for each entry it consumes one vararg as the key string and one
vararg under the entry's format unit as the value, in format order. -/
def pyBuildValueDict : List BFmt → List CArg → Option (List (String × PyVal))
  | [], [] => some []
  | f :: frest, .cstr k :: v :: rest => do
    let pv ← consumeArg f v
    let tail ← pyBuildValueDict frest rest
    pure ((k, pv) :: tail)
  | _, _ => none

/-- A Kwargs pack: the (name, value) pairs in declaration order. -/
abbrev KwPack := List (String × Scalar)

/-- Format units of detail::as_pyobject: one ",s:x" per kwarg, declaration order. -/
def as_pyobject_fmts (kws : KwPack) : List BFmt :=
  kws.map fun kv => kwargs_format_for kv.2

/-- The flat vararg list the SOURCE passes to Py_BuildValue:
std::tuple_cat(std::tuple(key...), std::tuple(value...)) — all keys first,
then all values. -/
def as_pyobject_args (kws : KwPack) : List CArg :=
  (kws.map fun kv => CArg.cstr kv.1) ++ (kws.map fun kv => as_buildvalue_arg kv.2)

/-- Modelled from the spec: the flat vararg list interleaved strictly left-to-right in
declaration order, (name1, value1, name2, value2, ...), as section 4.4 of the spec
describes (and as the sibling revision builds via per-kwarg (key, value) tuples). -/
def as_pyobject_args_spec (kws : KwPack) : List CArg :=
  kws.flatMap fun kv => [CArg.cstr kv.1, as_buildvalue_arg kv.2]

/-- Result of detail::as_pyobject over a Kwargs pack. -/
inductive KwBuildResult where
  | noKwargs
  | dict (d : List (String × PyVal))
  | buildError
deriving DecidableEq

/-- detail::as_pyobject over a Kwargs pack: with zero kwargs it returns the null
"no keyword arguments" sentinel before doing anything else; otherwise it invokes
Py_BuildValue through detail::check (one notification on a null result) and throws
std::runtime_error when the result is null (buildError). The second component is the
notification count. -/
def as_pyobject (kws : KwPack) : KwBuildResult × Nat :=
  match kws with
  | [] => (.noKwargs, 0)
  | _ :: _ =>
    match pyBuildValueDict (as_pyobject_fmts kws) (as_pyobject_args kws) with
    | some d => (.dict d, 0)
    | none => (.buildError, 1)

/-- The keyword-dictionary argument a build result contributes to PyObject_Call (the
sentinel is the null pointer; a buildError throws before any call happens). -/
def kwresultDict : KwBuildResult → Option (List (String × PyVal))
  | .noKwargs => none
  | .dict d => some d
  | .buildError => none

/-- PyObject_Call, modelled from the CPython API: sem abstracts the resolved foreign
callable as a function of the positional arguments and the keyword entries; a null
keyword-dictionary argument is documented to behave as passing no keyword arguments,
i.e. exactly like an empty dictionary. -/
def pyObject_Call (sem : List PyVal → List (String × PyVal) → Option Nat)
    (args : List PyVal) (kw : Option (List (String × PyVal))) : Option Nat :=
  sem args (kw.getD [])

/-- Outcomes of the three foreign steps an Axis invocation performs: attribute lookup,
positional-argument build, and the call itself (the last is the result PyObject_Call
would return if it is reached). -/
structure CallOracle where
  getattr : Option Nat
  buildargs : Option Nat
  callResult : Option Nat
deriving DecidableEq

/-- What an Axis invocation did: the returned bool, whether PyObject_Call was
performed, and how many times the notification mechanism (PyErr_Print) fired. -/
structure InvokeOutcome where
  success : Bool
  callPerformed : Bool
  notifyCount : Nat
deriving DecidableEq

/-- Axis::plot(x, y, kwargs): function and args are built through detail::check; the
call runs only under `if (function && args)`; a null call result, or null function or
args, falls through to an additional bare PyErr_Print before returning false. -/
def axisPlot (o : CallOracle) : InvokeOutcome :=
  let (f, n1) := check o.getattr
  let (a, n2) := check o.buildargs
  if f.isSome && a.isSome then
    let (r, n3) := check o.callResult
    if r.isSome then ⟨true, true, n1 + n2 + n3⟩
    else ⟨false, true, n1 + n2 + n3 + 1⟩
  else ⟨false, false, n1 + n2 + 1⟩

/-- Foreign-step outcomes for Axis::bar, including the bar_label follow-up performed
when the kwargs carry a "label" key. -/
structure BarOracle where
  getattr : Option Nat
  buildargs : Option Nat
  callResult : Option Nat
  hasLabelKey : Bool
  unicodeLabel : Option Nat
  barLabelCall : Option Nat
deriving DecidableEq

/-- Axis::bar(x, y, kwargs): same gating as plot; on a null call result it returns
false immediately (no extra PyErr_Print on that path); on success with a "label" key
it performs the bar_label sub-invocation (both steps through detail::check, results
discarded) and returns true. -/
def axisBar (o : BarOracle) : InvokeOutcome :=
  let (f, n1) := check o.getattr
  let (a, n2) := check o.buildargs
  if f.isSome && a.isSome then
    let (r, n3) := check o.callResult
    if r.isSome then
      if o.hasLabelKey then
        let (_, n4) := check o.unicodeLabel
        let (_, n5) := check o.barLabelCall
        ⟨true, true, n1 + n2 + n3 + n4 + n5⟩
      else ⟨true, true, n1 + n2 + n3⟩
    else ⟨false, true, n1 + n2 + n3⟩
  else ⟨false, false, n1 + n2 + 1⟩

/-- Axis::set_x_ticks(x, kwargs): resolves the attribute and creates the 1-tuple
through detail::check, then ALWAYS performs PyObject_Call — the source has no null
guard between the checks and the call. -/
def axisSetXTicks (o : CallOracle) : InvokeOutcome :=
  let (_, n1) := check o.getattr
  let (_, n2) := check o.buildargs
  let (r, n3) := check o.callResult
  ⟨r.isSome, true, n1 + n2 + n3⟩

/-- Traits::ImageSize on vector-of-vectors: (0, 0) for empty data, otherwise
(number of rows, length of the first row); the source asserts all rows share that
length (carried as a hypothesis in the theorems below). -/
def ImageSizeGet (data : List (List Scalar)) : Nat × Nat :=
  if data.length = 0 then (0, 0)
  else (data.length, (data.headD []).length)

/-- Traits::ImageAccess on vector-of-vectors: data.at(idx0).at(idx1); access is used
in-bounds only, so out-of-range defaults never arise under the theorems' hypotheses. -/
def ImageAccessAt (data : List (List Scalar)) (y x : Nat) : Scalar :=
  (data.getD y []).getD x default

/-- The nested foreign collection Axis::set_image builds and passes to imshow: for
each y below the row count a fresh row list, whose x-th entry is the conversion of
the image value at (y, x) (PyList_SET_ITEM steals the released references). -/
def setImagePyData (data : List (List Scalar)) : List (List PyVal) :=
  let size := ImageSizeGet data
  (List.range size.1).map fun y =>
    (List.range size.2).map fun x => value_to_pyobject_val (ImageAccessAt data y x)

/-- Figure::at: throws when loc.row is not below the grid's row count, then when
loc.col is not below the column count, otherwise returns _axes.at(row*nx + col)
(pure host-side bounds checks and vector access; no foreign call, no mutation). -/
def figureAt (ny nx : Nat) (axes : List Nat) (row col : Nat) : Except String Nat :=
  if ny ≤ row then .error "row index out of bounds."
  else if nx ≤ col then .error "column index out of bounds."
  else
    match axes.get? (row * nx + col) with
    | some a => .ok a
    | none => .error "vector at out of range"

theorem netEffect_append (t1 t2 : List RcEvent) (i : Nat) :
    netEffect (t1 ++ t2) i = netEffect t1 i + netEffect t2 i := by
  induction t1 with
  | nil => simp [netEffect]
  | cons e rest ih => cases e <;> simp [netEffect, ih] <;> ring

theorem list_get?_of_lt (l : List Nat) (n : Nat) (h : n < l.length) :
    l.get? n = some (l.getD n 0) := by
  induction l generalizing n with
  | nil => simp at h
  | cons a rest ih =>
    cases n with
    | zero => simp [List.getD]
    | succ m =>
      simp only [List.length_cons, Nat.succ_lt_succ_iff] at h
      simpa [List.getD] using ih m h

/-- C1: evaluating detail::as_pyobject at the pack (("a", 1), ("b", "x")) shows the
keyword builder does NOT interleave: the source hands Py_BuildValue all keys first and
then all values, while the format string consumes one key and one value alternately,
so the "i" slot reads the key "b" (type-confused varargs, modelled as a failed build);
the resulting dictionary is not the claimed one. The interleaved vararg order the spec
describes does produce exactly the dictionary with entries ("a", 1) and ("b", "x"). -/
theorem C1_keys_then_values_misaligned :
    as_pyobject [("a", .intV 1), ("b", .strV "x")] = (.buildError, 1) ∧
    as_pyobject_args [("a", .intV 1), ("b", .strV "x")] ≠
      as_pyobject_args_spec [("a", .intV 1), ("b", .strV "x")] ∧
    pyBuildValueDict (as_pyobject_fmts [("a", .intV 1), ("b", .strV "x")])
        (as_pyobject_args_spec [("a", .intV 1), ("b", .strV "x")]) =
      some [("a", .pyLong 1), ("b", .pyUnicode "x")] := by
  refine ⟨rfl, ?_, rfl⟩
  decide

/-- C2 (counterexample): a scope that converts the bool true and destroys the
resulting handle performs a net reference-count change of -1 on the Py_True
singleton, not 0: the conversion returns the singleton without incrementing, yet the
handle's destructor decrements it. -/
theorem C2_bool_refcount_deficit :
    netEffect (conversionScopeTrace (some 2) (.boolV true)) pyTrueId = -1 := by
  decide

/-- C2 (amended): copy- and borrow-constructed handles balance their construction
increment with the destructor decrement at every object, and a conversion scope for a
non-bool scalar creates a fresh foreign value whose single reference the handle
releases (net 0 at every object); the bool conversion however returns the shared
True/False singleton without incrementing, so destroying its handle performs one
unmatched decrement on that singleton. -/
theorem C2_scope_refcount_balance (p : PyPtr) (alloc : Nat) (v : Scalar) (i : Nat) :
    netEffect ((wrapperCopyCtor p).2 ++ wrapperDtor (wrapperCopyCtor p).1) i = 0 ∧
    netEffect ((wrapperBorrowCtor p).2 ++ wrapperDtor (wrapperBorrowCtor p).1) i = 0 ∧
    netEffect (conversionScopeTrace (some alloc) v) i =
      (match v with
       | .boolV b => if (if b then pyTrueId else pyFalseId) = i then -1 else 0
       | _ => 0) := by
  refine ⟨?_, ?_, ?_⟩ <;>
    [skip; skip;
     cases v <;>
       simp only [conversionScopeTrace, value_to_pyobject_rc, wrapperDtor, decrefTrace]] <;>
  cases p <;>
    simp [wrapperCopyCtor, wrapperBorrowCtor, increfTrace, wrapperDtor, decrefTrace,
      netEffect, conversionScopeTrace, value_to_pyobject_rc] <;>
  split_ifs <;> omega

/-- C3 (counterexample): when the foreign allocator fails, value_to_pyobject returns a
null handle with zero notifications (it never goes through detail::check), and
as_pylist likewise returns the null PyList_New result with zero notifications — the
claim that a null handle is never returned without the notification firing is false. -/
theorem C3_null_without_notification :
    (value_to_pyobject_rc none (.intV 0)).1 = none ∧
    (value_to_pyobject_rc none (.intV 0)).2.2 = 0 ∧
    (as_pylist_rc none).1 = none ∧ (as_pylist_rc none).2 = 0 := by
  decide

/-- C3 (amended): value_to_pyobject and as_pylist never trigger the error-notification
mechanism themselves; they return the foreign constructor's result unchecked — null
exactly when the allocation failed and the value is not a bool (bool conversions
always return a singleton), and as_pylist returns the PyList_New result as is.
Notification happens only at call sites that wrap results in detail::check. -/
theorem C3_conversions_do_not_notify (alloc : Option Nat) (v : Scalar) :
    (value_to_pyobject_rc alloc v).2.2 = 0 ∧
    ((value_to_pyobject_rc alloc v).1 = none ↔ alloc = none ∧ ∀ b, v ≠ .boolV b) ∧
    (as_pylist_rc alloc).2 = 0 ∧ (as_pylist_rc alloc).1 = alloc := by
  cases v <;> cases alloc <;> simp [value_to_pyobject_rc, as_pylist_rc]

/-- C4 (counterexample): move-assigning from a handle holding object 7 into a
destination holding object 5 leaves the source holding 5 — the swap does not null the
source, contrary to the claim. -/
theorem C4_move_assign_not_nulled :
    (wrapperMoveAssign (some 5) (some 7)).1.2 = some 5 ∧
    (wrapperMoveAssign (some 5) (some 7)).1.2 ≠ none := by
  decide

/-- C4 (amended): move construction transfers the source pointer to the destination,
leaves the source empty and performs no reference-count event; move assignment swaps
the two pointers with no reference-count event, so the source receives the
destination's previous pointer and is left empty only when the destination was. -/
theorem C4_move_transfers_without_refcount (dst src : PyPtr) :
    wrapperMoveCtor src = ((src, none), []) ∧
    wrapperMoveAssign dst src = ((src, dst), []) := ⟨rfl, rfl⟩

/-- C5 (counterexample): an Axis::plot whose attribute lookup fails fires the
notification mechanism twice — once inside detail::check and once more at the bare
PyErr_Print in the shared failure branch — not exactly once. -/
theorem C5_plot_notifies_twice :
    (axisPlot ⟨none, some 1, some 2⟩).success = false ∧
    (axisPlot ⟨none, some 1, some 2⟩).notifyCount = 2 := by
  decide

/-- C5 (amended): a failing Axis::plot operation fires the notification mechanism once
per failing check plus once more in the shared failure branch — at least twice, never
exactly once and never zero times. -/
theorem C5_failing_plot_notifies_at_least_twice (o : CallOracle)
    (h : (axisPlot o).success = false) : 2 ≤ (axisPlot o).notifyCount := by
  obtain ⟨f, a, r⟩ := o
  cases f <;> cases a <;> cases r <;> simp_all [axisPlot, check]

theorem C5_witness :
    (axisPlot ⟨some 1, some 2, none⟩).success = false ∧
    2 ≤ (axisPlot ⟨some 1, some 2, none⟩).notifyCount :=
  ⟨by decide, C5_failing_plot_notifies_at_least_twice ⟨some 1, some 2, none⟩ (by decide)⟩

/-- C6: building keyword arguments from zero kwargs returns the null no-kwargs
sentinel with no notification (and no exception: the sentinel is returned before the
check-and-throw path), and PyObject_Call treats that sentinel exactly like an
explicitly empty keyword dictionary, for every callable and argument list. -/
theorem C6_empty_kwargs_sentinel (sem : List PyVal → List (String × PyVal) → Option Nat)
    (args : List PyVal) :
    as_pyobject [] = (.noKwargs, 0) ∧
    pyObject_Call sem args (kwresultDict (as_pyobject []).1) =
      pyObject_Call sem args (some []) := ⟨rfl, rfl⟩

/-- C7 (counterexample): Axis::set_x_ticks performs the foreign call even when
attribute resolution returned a null handle — the operation does not short-circuit. -/
theorem C7_set_x_ticks_calls_anyway :
    (axisSetXTicks ⟨none, some 1, none⟩).callPerformed = true := by
  decide

/-- C7 (amended): Axis::plot and Axis::bar perform the foreign call exactly when both
attribute resolution and positional-tuple construction produced non-null handles —
they short-circuit on any null; Axis::set_x_ticks however always performs the call
(see the counterexample). -/
theorem C7_plot_bar_short_circuit (o : CallOracle) (ob : BarOracle) :
    (axisPlot o).callPerformed = (o.getattr.isSome && o.buildargs.isSome) ∧
    (axisBar ob).callPerformed = (ob.getattr.isSome && ob.buildargs.isSome) := by
  constructor
  · obtain ⟨f, a, r⟩ := o
    cases f <;> cases a <;> cases r <;> simp [axisPlot, check]
  · obtain ⟨f, a, r, hl, u, bl⟩ := ob
    cases f <;> cases a <;> cases r <;> cases hl <;> simp [axisBar, check]

/-- C8: for image data whose size query returns (r, c) and whose rows all have length
c (the equal-row-length precondition asserted by ImageSize::get), the nested
collection built by Axis::set_image has r rows, row i has c entries, and entry (i, j)
is exactly the conversion of the source value at row i, column j, for all i below r
and j below c (row-major order preserved). -/
theorem C8_set_image_rowmajor (data : List (List Scalar)) (r c i j : Nat)
    (hsz : ImageSizeGet data = (r, c))
    (hrows : ∀ row ∈ data, row.length = c)
    (hi : i < r) (hj : j < c) :
    (setImagePyData data).length = r ∧
    ((setImagePyData data).getD i []).length = c ∧
    ((setImagePyData data).getD i []).getD j (.pyLong 0) =
      value_to_pyobject_val (ImageAccessAt data i j) := by
  have hdef : setImagePyData data =
      (List.range r).map (fun y =>
        (List.range c).map fun x => value_to_pyobject_val (ImageAccessAt data y x)) := by
    simp [setImagePyData, hsz]
  have hrow : (setImagePyData data).getD i [] =
      (List.range c).map fun x => value_to_pyobject_val (ImageAccessAt data i x) := by
    rw [hdef, List.getD_eq_getElem?_getD, List.getElem?_map, List.getElem?_range hi]
    rfl
  refine ⟨by simp [hdef], by rw [hrow]; simp, ?_⟩
  rw [hrow, List.getD_eq_getElem?_getD, List.getElem?_map, List.getElem?_range hj]
  rfl

theorem C8_witness :
    (setImagePyData [[.intV 1, .intV 2, .intV 3], [.intV 4, .intV 5, .intV 6]]).length = 2 ∧
    ((setImagePyData [[.intV 1, .intV 2, .intV 3],
        [.intV 4, .intV 5, .intV 6]]).getD 1 []).length = 3 ∧
    ((setImagePyData [[.intV 1, .intV 2, .intV 3],
        [.intV 4, .intV 5, .intV 6]]).getD 1 []).getD 2 (.pyLong 0) =
      value_to_pyobject_val
        (ImageAccessAt [[.intV 1, .intV 2, .intV 3], [.intV 4, .intV 5, .intV 6]] 1 2) :=
  C8_set_image_rowmajor [[.intV 1, .intV 2, .intV 3], [.intV 4, .intV 5, .intV 6]]
    2 3 1 2 (by decide) (by decide) (by decide) (by decide)

/-- C9: self copy-assignment leaves the handle's pointer unchanged and performs a net
reference-count change of zero on every foreign object: the temporary copy's single
increment is matched by exactly one decrement when the temporary is destroyed. -/
theorem C9_self_copy_assign_identity (p : PyPtr) (i : Nat) :
    (wrapperCopyAssign p p).1 = p ∧ netEffect (wrapperCopyAssign p p).2 i = 0 := by
  cases p with
  | none =>
    simp [wrapperCopyAssign, wrapperCopyCtor, wrapperBorrowCtor, increfTrace,
      wrapperMoveAssign, swap_pyobjects, wrapperDtor, decrefTrace, netEffect]
  | some q =>
    refine ⟨rfl, ?_⟩
    simp only [wrapperCopyAssign, wrapperCopyCtor, wrapperBorrowCtor, increfTrace,
      wrapperMoveAssign, swap_pyobjects, wrapperDtor, decrefTrace, netEffect,
      List.cons_append, List.nil_append]
    split_ifs <;> omega

/-- C10: with the constructor-established invariant that the axes vector holds exactly
ny*nx entries, Figure::at returns the axis stored at row-major index row*nx + col
whenever row is below ny and col below nx, and throws (an error result) exactly when
row is out of range or col is out of range; it is a pure host-side lookup. -/
theorem C10_figure_at_bounds (ny nx : Nat) (axes : List Nat) (row col : Nat)
    (hlen : axes.length = ny * nx) :
    (row < ny ∧ col < nx →
      figureAt ny nx axes row col = .ok (axes.getD (row * nx + col) 0)) ∧
    (ny ≤ row ∨ nx ≤ col → ∃ msg, figureAt ny nx axes row col = .error msg) := by
  constructor
  · rintro ⟨hr, hc⟩
    have hmul : (row + 1) * nx = row * nx + nx := by ring
    have hstep : (row + 1) * nx ≤ ny * nx := Nat.mul_le_mul_right nx hr
    have hidx : row * nx + col < axes.length := by rw [hlen]; omega
    rw [figureAt, if_neg (by omega), if_neg (by omega),
      list_get?_of_lt axes (row * nx + col) hidx]
  · intro h
    rw [figureAt]
    rcases h with hr | hc
    · rw [if_pos hr]
      exact ⟨_, rfl⟩
    · by_cases hrow : ny ≤ row
      · rw [if_pos hrow]
        exact ⟨_, rfl⟩
      · rw [if_neg hrow, if_pos hc]
        exact ⟨_, rfl⟩

theorem C10_witness :
    figureAt 2 2 [10, 11, 12, 13] 1 0 = .ok 12 :=
  (C10_figure_at_bounds 2 2 [10, 11, 12, 13] 1 0 (by decide)).1 ⟨by decide, by decide⟩

end Cpplot
